import Mathlib

/-!
Verification development for the Skyflow Vault secrets plugin.

The definitions below are shallow embeddings of the Go source of the
repository: the circuit breaker (backend circuit breaker file), the retry
loop and timeout wrapper of token generation, configuration validation and
the config-write handler, and the token read path.  Machine integers are
modelled as Int (the counters involved stay far from overflow), time is
modelled as an abstract Int clock passed to each call, and fallible Go
code returns Option or Except values.
-/

namespace Skyflow

/-- The three circuit breaker states, stored as strings in the Go source. -/
inductive CBState where
  | closed
  | opened
  | halfOpen
deriving DecidableEq, Repr

/-- Rendering of a circuit breaker state to the string used by the source. -/
def stateString : CBState → String
  | .closed => "closed"
  | .opened => "open"
  | .halfOpen => "half-open"

/-- Embedding of the Go struct circuitBreaker.  Timestamps are an abstract
Int clock; the zero value of time.Time is modelled as 0. -/
structure CircuitBreaker where
  maxFailures : Int
  resetTimeout : Int
  failures : Int
  lastFailTime : Int
  state : CBState
deriving DecidableEq, Repr

/-- Embedding of newCircuitBreaker: zero failures, zero last-failure time,
closed state. -/
def newCircuitBreaker (maxFailures resetTimeout : Int) : CircuitBreaker :=
  { maxFailures := maxFailures
    resetTimeout := resetTimeout
    failures := 0
    lastFailTime := 0
    state := .closed }

/-- The distinguished error string returned when the breaker sheds load. -/
def circuitOpenErr : String := "circuit breaker is open, rejecting request"

/-- Post-operation bookkeeping of circuitBreaker.call: on failure increment
the counter, stamp the failure time and possibly open the circuit; on
success reset the counter and close a half-open circuit.  The result is
the updated breaker, the returned error, and whether the wrapped operation
was invoked. -/
def afterOp (cb : CircuitBreaker) (now : Int) (opResult : Option String) :
    CircuitBreaker × Option String × Bool :=
  match opResult with
  | some e =>
      let f := cb.failures + 1
      ({ cb with
          failures := f
          lastFailTime := now
          state := if cb.maxFailures ≤ f then .opened else cb.state },
        some e, true)
  | none =>
      ({ cb with
          state := if cb.state = .halfOpen then .closed else cb.state
          failures := 0 },
        none, true)

/-- Embedding of circuitBreaker.call.  The wrapped operation is modelled by
its outcome opResult (none meaning success, some e meaning it failed with
error e); now is the current clock value.  An open circuit whose reset
timeout has not yet elapsed rejects without invoking the operation. -/
def call (cb : CircuitBreaker) (now : Int) (opResult : Option String) :
    CircuitBreaker × Option String × Bool :=
  if cb.state = .opened then
    if now - cb.lastFailTime > cb.resetTimeout then
      afterOp { cb with state := .halfOpen } now opResult
    else
      (cb, some circuitOpenErr, false)
  else
    afterOp cb now opResult

/-- Embedding of circuitBreaker.getState. -/
def getState (cb : CircuitBreaker) : String :=
  stateString cb.state

/-- Embedding of circuitBreaker.reset. -/
def resetCB (cb : CircuitBreaker) : CircuitBreaker :=
  { cb with failures := 0, state := .closed, lastFailTime := 0 }

/-- Read-only snapshot returned by circuitBreaker.getStats; the last-failure
entries are present only when a failure has been recorded. -/
structure CBStats where
  state : String
  failures : Int
  maxFailures : Int
  timeSinceFailure : Option Int
deriving DecidableEq, Repr

/-- Embedding of circuitBreaker.getStats. -/
def getStats (cb : CircuitBreaker) (now : Int) : CBStats :=
  { state := stateString cb.state
    failures := cb.failures
    maxFailures := cb.maxFailures
    timeSinceFailure := if cb.lastFailTime = 0 then none else some (now - cb.lastFailTime) }

/-- The sequential operations offered by the circuit breaker. -/
inductive CBOp where
  | callOp (now : Int) (opResult : Option String)
  | resetOp
  | getStateOp
  | getStatsOp (now : Int)
deriving DecidableEq, Repr

/-- One sequential step of the breaker; getState and getStats only read
under the read lock and leave the breaker unchanged. -/
def stepCB (cb : CircuitBreaker) : CBOp → CircuitBreaker
  | .callOp now r => (call cb now r).1
  | .resetOp => resetCB cb
  | .getStateOp => cb
  | .getStatsOp _ => cb

/-- Run a sequential trace of breaker operations. -/
def runCB (cb : CircuitBreaker) (ops : List CBOp) : CircuitBreaker :=
  ops.foldl stepCB cb

/-- A sequence of calls whose wrapped operation fails each time; each list
entry carries the clock value of the call and the error of the operation. -/
def failCalls (cb : CircuitBreaker) (l : List (Int × String)) : CircuitBreaker :=
  l.foldl (fun c p => (call c p.1 (some p.2)).1) cb

/-- Bearer token value returned by the upstream exchange. -/
structure Token where
  accessToken : String
  tokenType : String
deriving DecidableEq, Repr

/-- Embedding of the Go struct skyflowConfig (the fields the core reads). -/
structure SkyflowConfig where
  credentialsFilePath : String
  credentialsJSON : String
  maxRetries : Int
  requestTimeout : Int
  description : String
  version : Int
deriving DecidableEq, Repr

/-- Embedding of defaultConfig. -/
def defaultConfig : SkyflowConfig :=
  { credentialsFilePath := ""
    credentialsJSON := ""
    maxRetries := 3
    requestTimeout := 30
    description := ""
    version := 1 }

/-- The role schema used by the retry-loop variant of generateToken: a role
may carry a credential override. -/
structure RoleV1 where
  name : String
  credentialsFilePath : String
  credentialsJSON : String
deriving DecidableEq, Repr

/-- The credential source chosen by one iteration of the retry loop. -/
inductive CredSource where
  | roleFile (path : String)
  | roleJSON (creds : String)
  | configFile (path : String)
  | configJSON (creds : String)
deriving DecidableEq, Repr

/-- The credential-selection if-chain at the top of each retry iteration:
role file path, else role inline JSON, else config file path, else config
inline JSON, else nothing. -/
def selectCred (cfg : SkyflowConfig) (role : RoleV1) : Option CredSource :=
  if role.credentialsFilePath ≠ "" then some (.roleFile role.credentialsFilePath)
  else if role.credentialsJSON ≠ "" then some (.roleJSON role.credentialsJSON)
  else if cfg.credentialsFilePath ≠ "" then some (.configFile cfg.credentialsFilePath)
  else if cfg.credentialsJSON ≠ "" then some (.configJSON cfg.credentialsJSON)
  else none

/-- The structured errors produced by the retry-loop variant of
generateToken; attempt counts mirror the maxRetries+1 reported by the
source error strings. -/
inductive GenError where
  | noCredentials
  | exhausted (attempts : Int) (last : String)
  | noToken (attempts : Int)
deriving DecidableEq, Repr

/-- Rendering of a GenError to the message format of the source. -/
def renderGenError : GenError → String
  | .noCredentials => "no credentials configured"
  | .exhausted attempts last =>
      "failed to generate bearer token after " ++ toString attempts ++ " attempts: " ++ last
  | .noToken attempts =>
      "failed to generate bearer token: no token returned after " ++ toString attempts ++ " attempts"

/-- Observable trace of one run of the retry loop: how many times the
exchange was invoked, the backoff sleeps (in seconds, in order), the value
of the token variable at exit, and the error the closure returned (none
meaning the closure returned nil). -/
structure RetryTrace where
  attempts : Nat
  sleeps : List Nat
  tokenVar : Option Token
  result : Option GenError
deriving DecidableEq, Repr

/-- Embedding of the retry loop body of the generateToken variant with
bounded retries.  The loop iterates over the zero-indexed attempt numbers;
tokenVar and lastErr are the loop-carried Go variables, and ex models the
upstream exchange as a function of the selected credential and the attempt
number.  A sleep of 2 ^ attempt seconds is recorded only when further
attempts remain; when the list is exhausted the after-loop error wrapping
the carried lastErr is produced. -/
def retryGo (cfg : SkyflowConfig) (role : RoleV1)
    (ex : CredSource → Nat → Option Token × Option String)
    (tokenVar : Option Token) (lastErr : Option String) :
    List Nat → RetryTrace
  | [] =>
      match lastErr with
      | some e =>
          { attempts := 0, sleeps := [], tokenVar := tokenVar
            result := some (.exhausted (cfg.maxRetries + 1) e) }
      | none =>
          { attempts := 0, sleeps := [], tokenVar := tokenVar
            result := some (.noToken (cfg.maxRetries + 1)) }
  | attempt :: rest =>
      match selectCred cfg role with
      | none =>
          { attempts := 0, sleeps := [], tokenVar := tokenVar
            result := some .noCredentials }
      | some c =>
          let r := ex c attempt
          if r.2 = none ∧ r.1 ≠ none then
            { attempts := 1, sleeps := [], tokenVar := r.1, result := none }
          else
            let tr := retryGo cfg role ex r.1 r.2 rest
            if (attempt : Int) < cfg.maxRetries then
              { attempts := tr.attempts + 1, sleeps := 2 ^ attempt :: tr.sleeps
                tokenVar := tr.tokenVar, result := tr.result }
            else
              { attempts := tr.attempts + 1, sleeps := tr.sleeps
                tokenVar := tr.tokenVar, result := tr.result }

/-- The attempt indices visited by the Go loop for attempt from 0 while
attempt is at most maxRetries. -/
def attemptList (maxRetries : Int) : List Nat :=
  List.range (maxRetries + 1).toNat

/-- One full run of the retry loop of generateToken, starting from nil
token and nil lastErr. -/
def retryLoop (cfg : SkyflowConfig) (role : RoleV1)
    (ex : CredSource → Nat → Option Token × Option String) : RetryTrace :=
  retryGo cfg role ex none none (attemptList cfg.maxRetries)

/-- Error message of the neither-credential-source validation branch. -/
def msgEitherRequired : String :=
  "either credentials_file_path or credentials_json must be provided"

/-- Error message of the both-credential-sources validation branch. -/
def msgOnlyOne : String :=
  "only one of credentials_file_path or credentials_json can be provided"

/-- Error message of the malformed-inline-JSON validation branch. -/
def msgInvalidJSON : String :=
  "credentials_json must be valid JSON"

/-- Error message of the max-retries range validation branch. -/
def msgRetriesRange : String :=
  "max_retries must be between 0 and 10"

/-- Error message of the request-timeout range validation branch. -/
def msgTimeoutRange : String :=
  "request_timeout must be between 1 and 300 seconds"

/-- Embedding of skyflowConfig.validate; the external JSON parser is
modelled by the predicate jsonValid (true exactly when json.Unmarshal
succeeds). -/
def validate (jsonValid : String → Bool) (c : SkyflowConfig) : Option String :=
  if c.credentialsFilePath = "" ∧ c.credentialsJSON = "" then some msgEitherRequired
  else if c.credentialsFilePath ≠ "" ∧ c.credentialsJSON ≠ "" then some msgOnlyOne
  else if c.credentialsJSON ≠ "" ∧ jsonValid c.credentialsJSON = false then some msgInvalidJSON
  else if c.maxRetries < 0 ∨ 10 < c.maxRetries then some msgRetriesRange
  else if c.requestTimeout < 1 ∨ 300 < c.requestTimeout then some msgTimeoutRange
  else none

/-- The credential-field update block of pathConfigWrite: a supplied file
path is stored and clears the stored inline JSON, then a supplied inline
JSON is stored and clears the stored file path (so the JSON wins when both
are supplied in one request).  A field is none when absent from the
request. -/
def applyCredUpdates (base : SkyflowConfig) (credPath credJSON : Option String) :
    SkyflowConfig :=
  let c1 := match credPath with
    | some p => { base with credentialsFilePath := p, credentialsJSON := "" }
    | none => base
  match credJSON with
  | some j => { c1 with credentialsJSON := j, credentialsFilePath := "" }
  | none => c1

/-- The full field-update block of pathConfigWrite, covering the credential
fields and the max-retries, request-timeout and description fields. -/
def applyConfigUpdates (base : SkyflowConfig) (credPath credJSON : Option String)
    (mr rt : Option Int) (desc : Option String) : SkyflowConfig :=
  let c2 := applyCredUpdates base credPath credJSON
  let c3 := match mr with
    | some v => { c2 with maxRetries := v }
    | none => c2
  let c4 := match rt with
    | some v => { c3 with requestTimeout := v }
    | none => c3
  match desc with
  | some d => { c4 with description := d }
  | none => c4

/-- The role schema used by the role-ID-list variant of the backend. -/
structure RoleV2 where
  name : String
  roleIDs : List String
deriving DecidableEq, Repr

/-- The options passed to the upstream SDK token-generation call. -/
structure BearerTokenOptions where
  roleIDs : List String
  ctxData : String
deriving DecidableEq, Repr

/-- Outcome of one upstream SDK call: a returned token pointer (possibly
nil), a returned error, or a runtime panic carrying a value. -/
inductive SDKOutcome where
  | ok (t : Option Token)
  | err (e : String)
  | panicked (v : String)
deriving DecidableEq, Repr

/-- The structured errors produced by the role-ID-list variant of
generateToken. -/
inductive GenErr2 where
  | fileNotFound (path : String)
  | noCredentials
  | sdkError (e : String)
  | emptyToken
  | panicRecovered (v : String)
deriving DecidableEq, Repr

/-- Rendering of a GenErr2 to the message format of the source. -/
def renderGenErr2 : GenErr2 → String
  | .fileNotFound p => "credentials file not found: " ++ p
  | .noCredentials => "no credentials configured"
  | .sdkError e => "failed to generate bearer token: " ++ e
  | .emptyToken => "token generation returned empty token"
  | .panicRecovered v => "token generation panic: " ++ v

/-- Post-processing of the SDK call inside generateToken: the deferred
recover turns a panic into the typed panic error with a nil token, a
returned SDK error is wrapped, and a nil token or empty access-token field
becomes the empty-token error. -/
def handleSDKOutcome : SDKOutcome → Except GenErr2 Token
  | .panicked v => .error (.panicRecovered v)
  | .err e => .error (.sdkError e)
  | .ok none => .error .emptyToken
  | .ok (some t) => if t.accessToken = "" then .error .emptyToken else .ok t

/-- Embedding of the generateToken variant with panic containment: choose
the config file path (after an existence check) or else the config inline
JSON, call the SDK with the role IDs and context data, and post-process;
with neither credential source the SDK is never invoked.  An error result
carries no token, matching the nil token returned by the source. -/
def generateTokenV2 (sdk : CredSource → BearerTokenOptions → SDKOutcome)
    (fileExists : String → Bool) (config : SkyflowConfig) (role : RoleV2)
    (ctxData : String) : Except GenErr2 Token :=
  let opts : BearerTokenOptions := { roleIDs := role.roleIDs, ctxData := ctxData }
  if config.credentialsFilePath ≠ "" then
    if fileExists config.credentialsFilePath = false then
      .error (.fileNotFound config.credentialsFilePath)
    else
      handleSDKOutcome (sdk (.configFile config.credentialsFilePath) opts)
  else if config.credentialsJSON ≠ "" then
    handleSDKOutcome (sdk (.configJSON config.credentialsJSON) opts)
  else
    .error .noCredentials

/-- Errors visible to the caller of generateTokenWithTimeout: either an
issuance error propagated unchanged, or the distinct timeout error carrying
the configured timeout in seconds and the cancellation cause. -/
inductive TGErr where
  | issuance (e : GenErr2)
  | timeoutAfter (seconds : Int) (cause : String)
deriving DecidableEq, Repr

/-- Embedding of generateTokenWithTimeout.  The issuance runs as a separate
task whose completed result is inner; the select between the result channel
and the expiring context is modelled by the oracle resultFirst, true when
the result arrives before the deadline; cause is the context cancellation
cause.  In the deadline branch the caller receives no token and the timeout
error built from config.requestTimeout and the cause. -/
def generateTokenWithTimeoutM (cfg : SkyflowConfig) (inner : Except GenErr2 Token)
    (resultFirst : Bool) (cause : String) : Option Token × Option TGErr :=
  if resultFirst then
    match inner with
    | .ok t => (some t, none)
    | .error e => (none, some (.issuance e))
  else
    (none, some (.timeoutAfter cfg.requestTimeout cause))

/-- A single-slot buffered channel: sending into an empty slot succeeds
without blocking and fills the slot; sending into a full slot would block
(returned as none). -/
def chanSend {α : Type} (slot : Option α) (a : α) : Option (Option α) :=
  match slot with
  | none => some (some a)
  | some _ => none

/-- Result of one storage Get as seen by getRole and getConfig: no entry,
a decoded entry, a storage failure, or a decode failure. -/
inductive StoreGet (α : Type) where
  | absent
  | present (a : α)
  | getFailed (e : String)
  | decodeFailed (e : String)

/-- Embedding of getRole: an empty name is an error, a missing entry is a
nil role with a nil error, and storage or decode failures are wrapped
errors. -/
def getRoleM (store : String → StoreGet RoleV2) (name : String) :
    Except String (Option RoleV2) :=
  if name = "" then .error "role name is required"
  else
    match store ("role/" ++ name) with
    | .absent => .ok none
    | .present r => .ok (some r)
    | .getFailed e => .error ("failed to get role: " ++ e)
    | .decodeFailed e => .error ("failed to decode role: " ++ e)

/-- Embedding of getConfig: a missing entry is a nil config with nil error. -/
def getConfigM (store : String → StoreGet SkyflowConfig) :
    Except String (Option SkyflowConfig) :=
  match store "config" with
  | .absent => .ok none
  | .present c => .ok (some c)
  | .getFailed e => .error ("failed to get configuration: " ++ e)
  | .decodeFailed e => .error ("failed to decode configuration: " ++ e)

/-- Result of the token read handler: a user-visible error response with a
nil Go error, an internal Go error failing the request, or the token
response data. -/
inductive PathResult where
  | respErr (msg : String)
  | goErr (e : String)
  | respOk (accessToken tokenType : String)
deriving DecidableEq, Repr

/-- Embedding of pathTokenRead: resolve the role (missing role becomes a
user-visible error response), resolve the config (missing config becomes a
user-visible error response), then generate the token and answer with its
fields or with a user-visible failure message. -/
def pathTokenReadM (rstore : String → StoreGet RoleV2)
    (cstore : String → StoreGet SkyflowConfig)
    (sdk : CredSource → BearerTokenOptions → SDKOutcome) (fe : String → Bool)
    (name ctxData : String) : PathResult :=
  match getRoleM rstore name with
  | .error e => .goErr e
  | .ok none => .respErr ("role \"" ++ name ++ "\" not found")
  | .ok (some role) =>
      match getConfigM cstore with
      | .error e => .goErr e
      | .ok none => .respErr "backend not configured"
      | .ok (some config) =>
          match generateTokenV2 sdk fe config role ctxData with
          | .error e => .respErr ("failed to generate token: " ++ renderGenErr2 e)
          | .ok t => .respOk t.accessToken t.tokenType

end Skyflow

namespace Skyflow

theorem afterOp_fail (cb : CircuitBreaker) (now : Int) (e : String) :
    afterOp cb now (some e) =
      ({ cb with
          failures := cb.failures + 1
          lastFailTime := now
          state := if cb.maxFailures ≤ cb.failures + 1 then .opened else cb.state },
        some e, true) := rfl

theorem call_closed (cb : CircuitBreaker) (now : Int) (r : Option String)
    (h : cb.state = .closed) : call cb now r = afterOp cb now r := by
  unfold call
  rw [h]
  simp

theorem failCalls_nil (cb : CircuitBreaker) : failCalls cb [] = cb := rfl

theorem failCalls_cons (cb : CircuitBreaker) (p : Int × String) (l : List (Int × String)) :
    failCalls cb (p :: l) = failCalls ((call cb p.1 (some p.2)).1) l := rfl

/-- While the failure count stays strictly under the threshold, a run of
failing calls leaves the breaker closed and adds one failure per call. -/
theorem failCalls_stays_closed (l : List (Int × String)) :
    ∀ cb : CircuitBreaker, cb.state = .closed →
      cb.failures + l.length < cb.maxFailures →
      (failCalls cb l).state = .closed ∧
      (failCalls cb l).failures = cb.failures + l.length ∧
      (failCalls cb l).maxFailures = cb.maxFailures := by
  induction l with
  | nil =>
      intro cb hst _
      simp [failCalls_nil, hst]
  | cons p l ih =>
      intro cb hst hlt
      rw [failCalls_cons, call_closed cb p.1 (some p.2) hst, afterOp_fail]
      have hmax : ¬ cb.maxFailures ≤ cb.failures + 1 := by
        have hl : (0 : Int) ≤ l.length := Int.ofNat_nonneg l.length
        simp only [List.length_cons] at hlt
        push_cast at hlt
        omega
      have h2 : cb.failures + 1 + l.length < cb.maxFailures := by
        simp only [List.length_cons] at hlt
        push_cast at hlt ⊢
        omega
      have := ih { cb with
          failures := cb.failures + 1
          lastFailTime := p.1
          state := if cb.maxFailures ≤ cb.failures + 1 then .opened else cb.state }
        (by simp [hmax, hst]) (by simpa using h2)
      simp only [List.length_cons] at *
      rcases this with ⟨h1, h2', h3⟩
      refine ⟨h1, ?_, h3⟩
      rw [h2']
      push_cast
      ring

/-- A nonempty run of failing calls that drives the failure count exactly to
the threshold ends with the breaker open. -/
theorem failCalls_opens (l : List (Int × String)) :
    ∀ cb : CircuitBreaker, cb.state = .closed →
      cb.failures + l.length = cb.maxFailures → l ≠ [] →
      (failCalls cb l).state = .opened := by
  induction l with
  | nil => intro cb _ _ hne; exact absurd rfl hne
  | cons p l ih =>
      intro cb hst heq _
      rw [failCalls_cons, call_closed cb p.1 (some p.2) hst, afterOp_fail]
      rcases eq_or_ne l [] with hnil | hne'
      · subst hnil
        have hmax : cb.maxFailures ≤ cb.failures + 1 := by
          simp only [List.length_cons, List.length_nil] at heq
          omega
        simp [failCalls_nil, hmax]
      · have hmax : ¬ cb.maxFailures ≤ cb.failures + 1 := by
          have : 1 ≤ l.length := List.length_pos.mpr hne'
          simp only [List.length_cons] at heq
          push_cast at heq
          omega
        refine ih _ (by simp [hmax, hst]) ?_ hne'
        simp only [List.length_cons] at heq
        push_cast at heq ⊢
        omega

/-- C1 (amended): for a freshly constructed breaker with threshold at least
one, any sequence of exactly maxFailures failing calls ends with getState
returning "open", and any strictly shorter sequence of failing calls leaves
getState returning "closed". -/
theorem breaker_threshold (max timeout : Int) (hmax : 1 ≤ max) :
    (∀ l : List (Int × String), (l.length : Int) = max →
        getState (failCalls (newCircuitBreaker max timeout) l) = "open") ∧
    (∀ l : List (Int × String), (l.length : Int) < max →
        getState (failCalls (newCircuitBreaker max timeout) l) = "closed") := by
  constructor
  · intro l hlen
    have hne : l ≠ [] := by
      intro h
      subst h
      simp at hlen
      omega
    have := failCalls_opens l (newCircuitBreaker max timeout) rfl
      (by simp [newCircuitBreaker, hlen]) hne
    simp [getState, this, stateString]
  · intro l hlen
    have := failCalls_stays_closed l (newCircuitBreaker max timeout) rfl
      (by simp [newCircuitBreaker, hlen])
    simp [getState, this.1, stateString]

theorem breaker_threshold_witness :
    getState (failCalls (newCircuitBreaker 2 3600) [(0, "e"), (1, "e")]) = "open" ∧
    getState (failCalls (newCircuitBreaker 2 3600) [(0, "e")]) = "closed" :=
  ⟨(breaker_threshold 2 3600 (by decide)).1 [(0, "e"), (1, "e")] (by decide),
   (breaker_threshold 2 3600 (by decide)).2 [(0, "e")] (by decide)⟩

/-- C1 counterexample: the claim quantifies over every threshold, but with
maxFailures = 0 the fresh breaker after 0 failing calls (0 = maxFailures)
still reports "closed", not "open". -/
theorem breaker_threshold_counterexample :
    (([] : List (Int × String)).length : Int) = 0 ∧
    getState (failCalls (newCircuitBreaker 0 3600) []) = "closed" ∧
    getState (failCalls (newCircuitBreaker 0 3600) []) ≠ "open" := by
  refine ⟨rfl, rfl, ?_⟩
  decide

/-- C2: an open breaker whose reset timeout has not elapsed rejects the call
with the distinguished circuit-open error, never invokes the wrapped
operation, and leaves every breaker field unchanged. -/
theorem open_breaker_rejects (cb : CircuitBreaker) (now : Int) (opResult : Option String)
    (hopen : cb.state = .opened)
    (helapsed : now - cb.lastFailTime < cb.resetTimeout) :
    call cb now opResult = (cb, some circuitOpenErr, false) := by
  unfold call
  rw [hopen]
  have : ¬ now - cb.lastFailTime > cb.resetTimeout := by omega
  simp [this]

theorem open_breaker_rejects_witness :
    call { maxFailures := 2, resetTimeout := 3600, failures := 2,
           lastFailTime := 100, state := .opened } 101 (some "e") =
      ({ maxFailures := 2, resetTimeout := 3600, failures := 2,
         lastFailTime := 100, state := .opened }, some circuitOpenErr, false) :=
  open_breaker_rejects _ 101 (some "e") rfl (by decide)

theorem stepCB_inv (cb : CircuitBreaker) (op : CBOp)
    (h : cb.state = .opened → cb.maxFailures ≤ cb.failures) :
    (stepCB cb op).state = .opened → (stepCB cb op).maxFailures ≤ (stepCB cb op).failures := by
  cases op with
  | callOp now r =>
      simp only [stepCB]
      unfold call
      by_cases hst : cb.state = .opened
      · rw [if_pos hst]
        by_cases ht : now - cb.lastFailTime > cb.resetTimeout
        · rw [if_pos ht]
          cases r with
          | some e =>
              simp only [afterOp]
              by_cases hm : cb.maxFailures ≤ cb.failures + 1
              · simp [hm]
              · simp only [if_neg hm]
                intro hcontra
                simp at hcontra
          | none =>
              simp [afterOp]
        · rw [if_neg ht]
          exact h
      · rw [if_neg hst]
        cases r with
        | some e =>
            simp only [afterOp]
            by_cases hm : cb.maxFailures ≤ cb.failures + 1
            · simp [hm]
            · simp only [if_neg hm]
              intro hcontra
              exact absurd hcontra hst
        | none =>
            simp only [afterOp]
            by_cases hh : cb.state = .halfOpen
            · simp only [if_pos hh]
              intro hcontra
              simp at hcontra
            · simp only [if_neg hh]
              intro hcontra
              exact absurd hcontra hst
  | resetOp =>
      simp only [stepCB, resetCB]
      intro hcontra
      simp at hcontra
  | getStateOp => exact h
  | getStatsOp now => exact h

theorem runCB_inv (ops : List CBOp) :
    ∀ cb : CircuitBreaker,
      (cb.state = .opened → cb.maxFailures ≤ cb.failures) →
      (runCB cb ops).state = .opened → (runCB cb ops).maxFailures ≤ (runCB cb ops).failures := by
  induction ops with
  | nil => intro cb h; exact h
  | cons op ops ih =>
      intro cb h
      exact ih (stepCB cb op) (stepCB_inv cb op h)

/-- C8: starting from a freshly constructed breaker, after any sequential
trace of call, reset, getState and getStats operations, an open state
implies the failure count has reached the threshold. -/
theorem breaker_open_invariant (max t : Int) (ops : List CBOp)
    (h : (runCB (newCircuitBreaker max t) ops).state = .opened) :
    (runCB (newCircuitBreaker max t) ops).maxFailures ≤
      (runCB (newCircuitBreaker max t) ops).failures := by
  refine runCB_inv ops (newCircuitBreaker max t) ?_ h
  intro hcontra
  simp [newCircuitBreaker] at hcontra

theorem breaker_open_invariant_witness :
    (runCB (newCircuitBreaker 1 3600) [CBOp.callOp 0 (some "e")]).maxFailures ≤
      (runCB (newCircuitBreaker 1 3600) [CBOp.callOp 0 (some "e")]).failures :=
  breaker_open_invariant 1 3600 [CBOp.callOp 0 (some "e")] (by decide)

theorem retryGo_nil (cfg : SkyflowConfig) (role : RoleV1)
    (ex : CredSource → Nat → Option Token × Option String)
    (tv : Option Token) (e : String) :
    retryGo cfg role ex tv (some e) [] =
      { attempts := 0, sleeps := [], tokenVar := tv
        result := some (.exhausted (cfg.maxRetries + 1) e) } := rfl

theorem retryGo_cons (cfg : SkyflowConfig) (role : RoleV1)
    (ex : CredSource → Nat → Option Token × Option String)
    (tv : Option Token) (le : Option String) (c0 : CredSource)
    (attempt : Nat) (rest : List Nat)
    (hsel : selectCred cfg role = some c0) :
    retryGo cfg role ex tv le (attempt :: rest) =
      (if (ex c0 attempt).2 = none ∧ (ex c0 attempt).1 ≠ none then
        { attempts := 1, sleeps := [], tokenVar := (ex c0 attempt).1, result := none }
      else
        let tr := retryGo cfg role ex (ex c0 attempt).1 (ex c0 attempt).2 rest
        if (attempt : Int) < cfg.maxRetries then
          { attempts := tr.attempts + 1, sleeps := 2 ^ attempt :: tr.sleeps
            tokenVar := tr.tokenVar, result := tr.result }
        else
          { attempts := tr.attempts + 1, sleeps := tr.sleeps
            tokenVar := tr.tokenVar, result := tr.result }) := by
  simp only [retryGo, hsel]

/-- When every invocation of the exchange fails, a run of the remaining
attempt indices performs one exchange invocation per index, sleeps
2 ^ attempt after each non-final attempt, and ends with the wrapped
exhaustion error carrying the error of the final attempt. -/
theorem retryGo_all_fail (cfg : SkyflowConfig) (role : RoleV1)
    (ex : CredSource → Nat → Option Token × Option String) (c0 : CredSource)
    (n : Nat) (e : String)
    (hm : cfg.maxRetries = (n : Int))
    (hsel : selectCred cfg role = some c0)
    (hfail : ∀ a, (ex c0 a).2 ≠ none)
    (hlast : (ex c0 n).2 = some e) :
    ∀ (k a : Nat) (tv : Option Token) (le : Option String), a + (k + 1) = n + 1 →
      retryGo cfg role ex tv le (List.range' a (k + 1)) =
        { attempts := k + 1
          sleeps := (List.range' a k).map fun i => 2 ^ i
          tokenVar := (ex c0 n).1
          result := some (.exhausted ((n : Int) + 1) e) } := by
  intro k
  induction k with
  | zero =>
      intro a tv le ha
      have haa : a = n := by omega
      subst haa
      have hcond : ¬ ((ex c0 a).2 = none ∧ (ex c0 a).1 ≠ none) := by
        rintro ⟨h1, _⟩
        exact hfail a h1
      have hlt : ¬ ((a : Int) < cfg.maxRetries) := by
        rw [hm]
        exact lt_irrefl _
      rw [show List.range' a (0 + 1) = [a] from rfl,
        retryGo_cons cfg role ex tv le c0 a [] hsel]
      simp only [hcond, if_false, hlt, hlast, retryGo_nil, hm]
      simp
  | succ k ih =>
      intro a tv le ha
      have hlt : ((a : Int) < cfg.maxRetries) := by
        rw [hm]
        have h2 : a < n := by omega
        exact_mod_cast h2
      have hcond : ¬ ((ex c0 a).2 = none ∧ (ex c0 a).1 ≠ none) := by
        rintro ⟨h1, _⟩
        exact hfail a h1
      rw [show List.range' a (k + 1 + 1) = a :: List.range' (a + 1) (k + 1) from rfl,
        retryGo_cons cfg role ex tv le c0 a (List.range' (a + 1) (k + 1)) hsel,
        ih (a + 1) (ex c0 a).1 (ex c0 a).2 (by omega)]
      simp only [hcond, if_false, hlt, if_true]
      rw [show List.range' a (k + 1) = a :: List.range' (a + 1) k from rfl]
      simp

/-- C3: with maxRetries = N and an exchange failing on every invocation, the
retry loop performs exactly N + 1 exchange invocations, sleeps 1, 2, 4, ...
= 2 ^ attempt seconds between consecutive attempts with no sleep after the
final one, and produces the error wrapping the final underlying error and
reporting N + 1 attempts. -/
theorem retry_exhausts (cfg : SkyflowConfig) (role : RoleV1)
    (ex : CredSource → Nat → Option Token × Option String) (c0 : CredSource) (n : Nat)
    (hm : cfg.maxRetries = (n : Int))
    (hsel : selectCred cfg role = some c0)
    (hfail : ∀ a, (ex c0 a).2 ≠ none) :
    (retryLoop cfg role ex).attempts = n + 1 ∧
    (retryLoop cfg role ex).sleeps = (List.range n).map (fun i => 2 ^ i) ∧
    ∃ e, (ex c0 n).2 = some e ∧
      (retryLoop cfg role ex).result = some (.exhausted ((n : Int) + 1) e) := by
  obtain ⟨e, he⟩ : ∃ e, (ex c0 n).2 = some e := by
    cases h : (ex c0 n).2 with
    | none => exact absurd h (hfail n)
    | some e => exact ⟨e, rfl⟩
  have hlist : attemptList cfg.maxRetries = List.range' 0 (n + 1) := by
    rw [attemptList, hm]
    have : ((n : Int) + 1).toNat = n + 1 := by omega
    rw [this, List.range_eq_range']
  have := retryGo_all_fail cfg role ex c0 n e hm hsel hfail he n 0 none none (by omega)
  rw [retryLoop, hlist, this]
  refine ⟨rfl, ?_, e, he, rfl⟩
  rw [List.range_eq_range']

theorem retry_exhausts_witness :
    (retryLoop { credentialsFilePath := "", credentialsJSON := "cj", maxRetries := 2,
                 requestTimeout := 30, description := "", version := 1 }
        { name := "r", credentialsFilePath := "", credentialsJSON := "" }
        (fun _ _ => (none, some "boom"))).attempts = 2 + 1 ∧
    (retryLoop { credentialsFilePath := "", credentialsJSON := "cj", maxRetries := 2,
                 requestTimeout := 30, description := "", version := 1 }
        { name := "r", credentialsFilePath := "", credentialsJSON := "" }
        (fun _ _ => (none, some "boom"))).sleeps = (List.range 2).map (fun i => 2 ^ i) :=
  ⟨(retry_exhausts
      { credentialsFilePath := "", credentialsJSON := "cj", maxRetries := 2,
        requestTimeout := 30, description := "", version := 1 }
      { name := "r", credentialsFilePath := "", credentialsJSON := "" }
      (fun _ _ => (none, some "boom")) (.configJSON "cj") 2 rfl (by decide)
      (fun _ h => Option.noConfusion h)).1,
   (retry_exhausts
      { credentialsFilePath := "", credentialsJSON := "cj", maxRetries := 2,
        requestTimeout := 30, description := "", version := 1 }
      { name := "r", credentialsFilePath := "", credentialsJSON := "" }
      (fun _ _ => (none, some "boom")) (.configJSON "cj") 2 rfl (by decide)
      (fun _ h => Option.noConfusion h)).2.1⟩

/-- If the credential selection succeeds, a retry run that performed no
exchange invocation cannot have returned success. -/
theorem retryGo_attempts_pos (cfg : SkyflowConfig) (role : RoleV1)
    (ex : CredSource → Nat → Option Token × Option String) (c0 : CredSource)
    (hsel : selectCred cfg role = some c0) :
    ∀ (l : List Nat) (tv : Option Token) (le : Option String),
      (retryGo cfg role ex tv le l).attempts = 0 →
      (retryGo cfg role ex tv le l).result ≠ none := by
  intro l tv le
  cases l with
  | nil =>
      cases le with
      | none => intro _; simp [retryGo]
      | some e => intro _; simp [retryGo]
  | cons a rest =>
      simp only [retryGo, hsel]
      by_cases hcond : (ex c0 a).2 = none ∧ (ex c0 a).1 ≠ none
      · simp [hcond]
      · simp only [if_neg hcond]
        by_cases hlt : ((a : Int) < cfg.maxRetries)
        · simp [hlt]
        · simp [hlt]

/-- C6 (amended): the retry loop returns success at an iteration exactly
when the issuance call reported no error and the returned token is
non-nil; the access-token field is not inspected by the loop.  On success
the loop returns immediately with one invocation, no sleep and no error. -/
theorem attempt_success_iff (cfg : SkyflowConfig) (role : RoleV1)
    (ex : CredSource → Nat → Option Token × Option String) (c0 : CredSource)
    (a : Nat) (rest : List Nat) (tv : Option Token) (le : Option String)
    (hsel : selectCred cfg role = some c0) :
    (((retryGo cfg role ex tv le (a :: rest)).attempts = 1 ∧
      (retryGo cfg role ex tv le (a :: rest)).result = none) ↔
        ((ex c0 a).2 = none ∧ (ex c0 a).1 ≠ none)) ∧
    ((ex c0 a).2 = none ∧ (ex c0 a).1 ≠ none →
      retryGo cfg role ex tv le (a :: rest) =
        { attempts := 1, sleeps := [], tokenVar := (ex c0 a).1, result := none }) := by
  by_cases hcond : (ex c0 a).2 = none ∧ (ex c0 a).1 ≠ none
  · constructor
    · simp [retryGo, hsel, hcond]
    · intro _
      simp [retryGo, hsel, hcond]
  · constructor
    · simp only [retryGo, hsel, if_neg hcond]
      constructor
      · by_cases hlt : ((a : Int) < cfg.maxRetries)
        · simp only [if_pos hlt]
          rintro ⟨h1, h2⟩
          have h0 : (retryGo cfg role ex (ex c0 a).1 (ex c0 a).2 rest).attempts = 0 := by
            omega
          exact absurd h2 (retryGo_attempts_pos cfg role ex c0 hsel rest _ _ h0)
        · simp only [if_neg hlt]
          rintro ⟨h1, h2⟩
          have h0 : (retryGo cfg role ex (ex c0 a).1 (ex c0 a).2 rest).attempts = 0 := by
            omega
          exact absurd h2 (retryGo_attempts_pos cfg role ex c0 hsel rest _ _ h0)
      · intro h
        exact absurd h hcond
    · intro h
      exact absurd h hcond

theorem attempt_success_iff_witness :
    retryGo { credentialsFilePath := "", credentialsJSON := "cj", maxRetries := 3,
              requestTimeout := 30, description := "", version := 1 }
        { name := "r", credentialsFilePath := "", credentialsJSON := "" }
        (fun _ _ => (some { accessToken := "tok", tokenType := "Bearer" }, none))
        none none [0, 1] =
      { attempts := 1, sleeps := []
        tokenVar := some { accessToken := "tok", tokenType := "Bearer" }, result := none } :=
  (attempt_success_iff
      { credentialsFilePath := "", credentialsJSON := "cj", maxRetries := 3,
        requestTimeout := 30, description := "", version := 1 }
      { name := "r", credentialsFilePath := "", credentialsJSON := "" }
      (fun _ _ => (some { accessToken := "tok", tokenType := "Bearer" }, none))
      (.configJSON "cj") 0 [1] none none (by decide)).2 ⟨rfl, by decide⟩

/-- C6 counterexample: an attempt that returns no error and a non-nil token
whose access-token field is empty is treated as a success by the retry
loop, which returns immediately with no error; the claim says such an
attempt is not a success. -/
theorem attempt_success_counterexample :
    (retryLoop { credentialsFilePath := "", credentialsJSON := "cj", maxRetries := 3,
                 requestTimeout := 30, description := "", version := 1 }
        { name := "r", credentialsFilePath := "", credentialsJSON := "" }
        (fun _ _ => (some { accessToken := "", tokenType := "Bearer" }, none))).result
      = none ∧
    (retryLoop { credentialsFilePath := "", credentialsJSON := "cj", maxRetries := 3,
                 requestTimeout := 30, description := "", version := 1 }
        { name := "r", credentialsFilePath := "", credentialsJSON := "" }
        (fun _ _ => (some { accessToken := "", tokenType := "Bearer" }, none))).attempts
      = 1 ∧
    (retryLoop { credentialsFilePath := "", credentialsJSON := "cj", maxRetries := 3,
                 requestTimeout := 30, description := "", version := 1 }
        { name := "r", credentialsFilePath := "", credentialsJSON := "" }
        (fun _ _ => (some { accessToken := "", tokenType := "Bearer" }, none))).tokenVar
      = some { accessToken := "", tokenType := "Bearer" } ∧
    ({ accessToken := "", tokenType := "Bearer" } : Token).accessToken = "" := by
  refine ⟨rfl, rfl, rfl, rfl⟩

/-- C7: validate rejects a config with both credential sources, rejects one
with neither, rejects out-of-range maxRetries or requestTimeout, and
succeeds exactly when one credential source is set, any inline JSON
parses, and both numeric settings are in range. -/
theorem config_validate_spec (jv : String → Bool) (c : SkyflowConfig) :
    (c.credentialsFilePath = "" → c.credentialsJSON = "" →
      validate jv c = some msgEitherRequired) ∧
    (c.credentialsFilePath ≠ "" → c.credentialsJSON ≠ "" →
      validate jv c = some msgOnlyOne) ∧
    ((c.maxRetries < 0 ∨ 10 < c.maxRetries) → validate jv c ≠ none) ∧
    ((c.requestTimeout < 1 ∨ 300 < c.requestTimeout) → validate jv c ≠ none) ∧
    (validate jv c = none ↔
      ((c.credentialsFilePath ≠ "" ∧ c.credentialsJSON = "") ∨
        (c.credentialsFilePath = "" ∧ c.credentialsJSON ≠ "")) ∧
      (c.credentialsJSON ≠ "" → jv c.credentialsJSON = true) ∧
      0 ≤ c.maxRetries ∧ c.maxRetries ≤ 10 ∧
      1 ≤ c.requestTimeout ∧ c.requestTimeout ≤ 300) := by
  unfold validate
  split_ifs with h1 h2 h3 h4 h5 <;>
    refine ⟨?_, ?_, ?_, ?_, ?_⟩ <;>
    simp_all <;>
    try omega
  tauto

theorem config_validate_spec_witness :
    validate (fun _ => true)
      { credentialsFilePath := "p", credentialsJSON := "", maxRetries := 3,
        requestTimeout := 30, description := "", version := 1 } = none ∧
    validate (fun _ => true)
      { credentialsFilePath := "p", credentialsJSON := "j", maxRetries := 3,
        requestTimeout := 30, description := "", version := 1 } = some msgOnlyOne :=
  ⟨(config_validate_spec (fun _ => true)
      { credentialsFilePath := "p", credentialsJSON := "", maxRetries := 3,
        requestTimeout := 30, description := "", version := 1 }).2.2.2.2.mpr
      ⟨Or.inl ⟨by decide, rfl⟩, fun _ => rfl, by decide, by decide, by decide, by decide⟩,
   (config_validate_spec (fun _ => true)
      { credentialsFilePath := "p", credentialsJSON := "j", maxRetries := 3,
        requestTimeout := 30, description := "", version := 1 }).2.1
      (by decide) (by decide)⟩

/-- A config with at most one credential source set never triggers the
both-sources validation branch. -/
theorem validate_onlyOne_ne (jv : String → Bool) (c : SkyflowConfig)
    (h : c.credentialsFilePath = "" ∨ c.credentialsJSON = "") :
    validate jv c ≠ some msgOnlyOne := by
  unfold validate
  split_ifs with h1 h2 h3 h4 h5
  · intro heq
    exact absurd (Option.some.inj heq) (by decide)
  · rcases h with h | h
    · exact absurd h h2.1
    · exact absurd h h2.2
  · intro heq
    exact absurd (Option.some.inj heq) (by decide)
  · intro heq
    exact absurd (Option.some.inj heq) (by decide)
  · intro heq
    exact absurd (Option.some.inj heq) (by decide)
  · exact fun heq => Option.noConfusion heq

theorem applyConfigUpdates_credFields (base : SkyflowConfig)
    (credPath credJSON : Option String) (mr rt : Option Int) (desc : Option String) :
    (applyConfigUpdates base credPath credJSON mr rt desc).credentialsFilePath =
      (applyCredUpdates base credPath credJSON).credentialsFilePath ∧
    (applyConfigUpdates base credPath credJSON mr rt desc).credentialsJSON =
      (applyCredUpdates base credPath credJSON).credentialsJSON := by
  cases mr <;> cases rt <;> cases desc <;> exact ⟨rfl, rfl⟩

/-- C9: the config-write handler preserves at-most-one credential source:
with a stored base config holding at most one source, the written config
holds at most one source, a supplied inline JSON wins and clears the file
path, a supplied file path alone clears the inline JSON, and the
both-sources validation branch is unreachable for the written config. -/
theorem config_write_at_most_one (base : SkyflowConfig)
    (credPath credJSON : Option String) (mr rt : Option Int) (desc : Option String)
    (hbase : base.credentialsFilePath = "" ∨ base.credentialsJSON = "") :
    ((applyConfigUpdates base credPath credJSON mr rt desc).credentialsFilePath = "" ∨
      (applyConfigUpdates base credPath credJSON mr rt desc).credentialsJSON = "") ∧
    (∀ j, credJSON = some j →
      (applyConfigUpdates base credPath credJSON mr rt desc).credentialsJSON = j ∧
      (applyConfigUpdates base credPath credJSON mr rt desc).credentialsFilePath = "") ∧
    (∀ p, credPath = some p → credJSON = none →
      (applyConfigUpdates base credPath credJSON mr rt desc).credentialsFilePath = p ∧
      (applyConfigUpdates base credPath credJSON mr rt desc).credentialsJSON = "") ∧
    (∀ jv, validate jv (applyConfigUpdates base credPath credJSON mr rt desc) ≠
      some msgOnlyOne) := by
  obtain ⟨hf, hj⟩ := applyConfigUpdates_credFields base credPath credJSON mr rt desc
  have hcred : (applyCredUpdates base credPath credJSON).credentialsFilePath = "" ∨
      (applyCredUpdates base credPath credJSON).credentialsJSON = "" := by
    cases credPath <;> cases credJSON <;> (simp [applyCredUpdates]; try tauto)
  refine ⟨by rw [hf, hj]; exact hcred, ?_, ?_, ?_⟩
  · intro j hjs
    subst hjs
    rw [hf, hj]
    cases credPath <;> simp [applyCredUpdates]
  · intro p hps hjn
    subst hps
    subst hjn
    rw [hf, hj]
    simp [applyCredUpdates]
  · intro jv
    exact validate_onlyOne_ne jv _ (by rw [hf, hj]; exact hcred)

theorem config_write_at_most_one_witness :
    ((applyConfigUpdates defaultConfig (some "p") (some "j") none none
        none).credentialsFilePath = "" ∨
      (applyConfigUpdates defaultConfig (some "p") (some "j") none none
        none).credentialsJSON = "") ∧
    (applyConfigUpdates defaultConfig (some "p") (some "j") none none
      none).credentialsJSON = "j" ∧
    (applyConfigUpdates defaultConfig (some "p") (some "j") none none
      none).credentialsFilePath = "" :=
  ⟨(config_write_at_most_one defaultConfig (some "p") (some "j") none none none
      (Or.inl rfl)).1,
   (config_write_at_most_one defaultConfig (some "p") (some "j") none none none
      (Or.inl rfl)).2.1 "j" rfl⟩

/-- C5: when the upstream SDK call panics, generateToken converts the panic
at its boundary into the typed panic-recovered error with no token, for
every config with a usable credential source; no panic propagates. -/
theorem generateToken_contains_panic (cfg : SkyflowConfig) (role : RoleV2)
    (ctxData : String) (sdk : CredSource → BearerTokenOptions → SDKOutcome)
    (fe : String → Bool) (v : String)
    (hpanic : ∀ c o, sdk c o = .panicked v)
    (hcred : ¬ (cfg.credentialsFilePath = "" ∧ cfg.credentialsJSON = ""))
    (hfe : cfg.credentialsFilePath ≠ "" → fe cfg.credentialsFilePath = true) :
    generateTokenV2 sdk fe cfg role ctxData = .error (.panicRecovered v) := by
  by_cases hp : cfg.credentialsFilePath = ""
  · have hj : cfg.credentialsJSON ≠ "" := fun h => hcred ⟨hp, h⟩
    simp [generateTokenV2, hp, hj, hpanic, handleSDKOutcome]
  · have hfe2 := hfe hp
    simp [generateTokenV2, hp, hfe2, hpanic, handleSDKOutcome]

theorem generateToken_contains_panic_witness :
    generateTokenV2 (fun _ _ => .panicked "boom") (fun _ => false)
      { credentialsFilePath := "", credentialsJSON := "cj", maxRetries := 3,
        requestTimeout := 30, description := "", version := 1 }
      { name := "r", roleIDs := ["id"] } "ctx" = .error (.panicRecovered "boom") :=
  generateToken_contains_panic
    { credentialsFilePath := "", credentialsJSON := "cj", maxRetries := 3,
      requestTimeout := 30, description := "", version := 1 }
    { name := "r", roleIDs := ["id"] } "ctx" (fun _ _ => .panicked "boom")
    (fun _ => false) "boom" (fun _ _ => rfl) (by decide) (fun h => absurd rfl h)

/-- C4: if the issuance result wins the race it is propagated unchanged
(token and error); if the deadline wins, the caller gets no token and the
timeout error, which is distinct from every issuance error and carries the
configured timeout and the cancellation cause; the abandoned result is
discarded (the deadline-branch answer does not depend on it) and the
single send into the empty one-slot buffer succeeds without blocking. -/
theorem timeout_race (cfg : SkyflowConfig) (inner inner2 : Except GenErr2 Token)
    (cause : String) :
    (∀ t, inner = .ok t →
      generateTokenWithTimeoutM cfg inner true cause = (some t, none)) ∧
    (∀ e, inner = .error e →
      generateTokenWithTimeoutM cfg inner true cause = (none, some (.issuance e))) ∧
    generateTokenWithTimeoutM cfg inner false cause =
      (none, some (.timeoutAfter cfg.requestTimeout cause)) ∧
    (∀ e, TGErr.timeoutAfter cfg.requestTimeout cause ≠ .issuance e) ∧
    generateTokenWithTimeoutM cfg inner false cause =
      generateTokenWithTimeoutM cfg inner2 false cause ∧
    (chanSend (none : Option (Except GenErr2 Token)) inner).isSome = true := by
  refine ⟨?_, ?_, rfl, ?_, rfl, rfl⟩
  · intro t h
    subst h
    rfl
  · intro e h
    subst h
    rfl
  · intro e h
    exact TGErr.noConfusion h

theorem timeout_race_witness :
    generateTokenWithTimeoutM defaultConfig (.ok { accessToken := "t", tokenType := "Bearer" })
      true "context deadline exceeded" =
      (some { accessToken := "t", tokenType := "Bearer" }, none) ∧
    generateTokenWithTimeoutM defaultConfig (.ok { accessToken := "t", tokenType := "Bearer" })
      false "context deadline exceeded" =
      (none, some (.timeoutAfter defaultConfig.requestTimeout "context deadline exceeded")) :=
  ⟨(timeout_race defaultConfig (.ok { accessToken := "t", tokenType := "Bearer" })
      (.ok { accessToken := "t", tokenType := "Bearer" }) "context deadline exceeded").1
      { accessToken := "t", tokenType := "Bearer" } rfl,
   (timeout_race defaultConfig (.ok { accessToken := "t", tokenType := "Bearer" })
      (.ok { accessToken := "t", tokenType := "Bearer" }) "context deadline exceeded").2.2.1⟩

/-- C10: a missing role entry makes getRole answer nil role with nil error
and the token endpoint answer the user-visible not-found response (not an
internal Go error); with the role present, a missing config entry makes
getConfig answer nil with nil error and the endpoint answer the
user-visible backend-not-configured response. -/
theorem absent_is_not_internal_error (rstore : String → StoreGet RoleV2)
    (cstore : String → StoreGet SkyflowConfig)
    (sdk : CredSource → BearerTokenOptions → SDKOutcome) (fe : String → Bool)
    (name ctxData : String) (hname : name ≠ "") :
    (rstore ("role/" ++ name) = .absent →
      getRoleM rstore name = .ok none ∧
      pathTokenReadM rstore cstore sdk fe name ctxData =
        .respErr ("role \"" ++ name ++ "\" not found")) ∧
    (∀ r, rstore ("role/" ++ name) = .present r → cstore "config" = .absent →
      getConfigM cstore = .ok none ∧
      pathTokenReadM rstore cstore sdk fe name ctxData =
        .respErr "backend not configured") := by
  constructor
  · intro habs
    have hrole : getRoleM rstore name = .ok none := by
      simp [getRoleM, hname, habs]
    exact ⟨hrole, by simp [pathTokenReadM, hrole]⟩
  · intro r hpres hcabs
    have hrole : getRoleM rstore name = .ok (some r) := by
      simp [getRoleM, hname, hpres]
    have hcfg : getConfigM cstore = .ok none := by
      simp [getConfigM, hcabs]
    exact ⟨hcfg, by simp [pathTokenReadM, hrole, hcfg]⟩

theorem absent_is_not_internal_error_witness :
    pathTokenReadM (fun _ => .absent) (fun _ => .absent) (fun _ _ => .err "e")
      (fun _ => true) "r" "" = .respErr ("role \"" ++ "r" ++ "\" not found") ∧
    pathTokenReadM (fun _ => .present { name := "r", roleIDs := ["id"] })
      (fun _ => .absent) (fun _ _ => .err "e") (fun _ => true) "r" "" =
      .respErr "backend not configured" :=
  ⟨((absent_is_not_internal_error (fun _ => .absent) (fun _ => .absent)
      (fun _ _ => .err "e") (fun _ => true) "r" "" (by decide)).1 rfl).2,
   ((absent_is_not_internal_error (fun _ => .present { name := "r", roleIDs := ["id"] })
      (fun _ => .absent) (fun _ _ => .err "e") (fun _ => true) "r" "" (by decide)).2
      { name := "r", roleIDs := ["id"] } rfl rfl).2⟩

end Skyflow
